import Mathlib

/-!
Verification of the TORAX source-model framework slice:
the constant-fraction impurity-radiation heat sink
(`torax/sources/impurity_radiation_heat_sink/impurity_radiation_constant_fraction.py`)
and the discriminated source-config resolution
(`torax/sources/pydantic_model.py`).

Per-cell arrays are embedded as `List ℚ`; dict-like mappings as
association lists in insertion order.
-/

deriving instance DecidableEq for Except

namespace Torax

/-- Decides whether `needle` occurs as a contiguous substring of `hay`
(a list of characters).  Models Python's `needle in hay` on strings. -/
def substrAux (needle : List Char) : List Char → Bool
  | [] => needle.isEmpty
  | c :: rest => needle.isPrefixOf (c :: rest) || substrAux needle rest

/-- Python's `needle in hay` membership test on strings. -/
def containsSubstring (needle hay : String) : Bool :=
  substrAux needle.data hay.data

/-- The spatial grid/geometry interface consumed by the sink model:
per-cell radial coordinates `rho`, per-cell volume derivative `vpr`,
the uniform normalized cell width `drho_norm`, and the cumulative
volume array indexed by face, `volume_face`. -/
structure Geometry where
  rho : List ℚ
  vpr : List ℚ
  drho_norm : ℚ
  volume_face : List ℚ

/-- Elementwise sum of two per-cell arrays (jnp `+` on same-shaped arrays). -/
def addArr (x y : List ℚ) : List ℚ := List.zipWith (· + ·) x y

/-- Elementwise product of two per-cell arrays (jnp `*` on same-shaped arrays). -/
def mulArr (x y : List ℚ) : List ℚ := List.zipWith (· * ·) x y

/-- Modelled from the spec: `torax.math_utils.cell_integration` is not under
src/.  Per the spec it integrates a per-cell quantity over the radial cells
with the grid's volume-element weighting already applied by the caller
(the caller passes `Q_in * geo.vpr`): a sum of the per-cell values times
the uniform normalized cell width `drho_norm`. -/
def cell_integration (x : List ℚ) (geo : Geometry) : ℚ :=
  (x.map (fun v => v * geo.drho_norm)).sum

/-- The per-step source-profiles container: for each governing equation a
mapping from source name to its per-cell contribution.  Only the two heat
equations are read by the constant-fraction sink. -/
structure SourceProfiles where
  temp_el : List (String × List ℚ)
  temp_ion : List (String × List ℚ)

/-- Modelled from the spec: the `Mode` enum of
`torax.sources.runtime_params` is not under src/; the spec lists the
variants inactive / prescribed-value / model-based. -/
inductive Mode where
  | ZERO
  | MODEL_BASED
  | PRESCRIBED
deriving DecidableEq

/-- Dynamic runtime parameters of the constant-fraction sink at one
instant: the scalar `fraction_of_total_power_density` plus the base-class
`mode` field (base fields modelled from the spec's data model,
`runtime_params_lib.DynamicRuntimeParams` is not under src/). -/
structure DynamicRuntimeParams where
  fraction_of_total_power_density : ℚ
  mode : Mode
deriving DecidableEq

/-- The non-sink summation loops of `radially_constant_fraction_of_Pin`:
fold over one equation's mapping, adding every entry whose source name
does not contain the substring `sink`. -/
def sumNonSink (entries : List (String × List ℚ)) (acc : List ℚ) : List ℚ :=
  entries.foldl
    (fun acc entry =>
      if containsSubstring "sink" entry.1 then acc else addArr acc entry.2)
    acc

/-- `Q_in`: starting from `jnp.zeros_like(geo.rho)`, sum the non-sink
entries of `temp_el`, then of `temp_ion` (lines 78–84 of the source). -/
def QtotIn (profiles : SourceProfiles) (geo : Geometry) : List ℚ :=
  sumNonSink profiles.temp_ion
    (sumNonSink profiles.temp_el (List.replicate geo.rho.length 0))

/-- The model function `radially_constant_fraction_of_Pin`.  The dynamic
params for this source (already looked up from the slice by name in the
source) are passed directly; a raised `ValueError` is an `Except.error`;
the returned tuple of per-cell arrays is a `List (List ℚ)`. -/
def radially_constant_fraction_of_Pin
    (dynamic_source_runtime_params : DynamicRuntimeParams)
    (geo : Geometry)
    (calculated_source_profiles : Option SourceProfiles) :
    Except String (List (List ℚ)) :=
  match calculated_source_profiles with
  | none =>
      Except.error
        "calculated_source_profiles is a required argument for `radially_constant_fraction_of_Pin`. This can occur if this source function is used in an explicit source."
  | some profiles =>
      Except.ok
        [List.replicate geo.rho.length
          (-dynamic_source_runtime_params.fraction_of_total_power_density
            * cell_integration (mulArr (QtotIn profiles geo) geo.vpr) geo
            / geo.volume_face.getLastD 0)]

/-- A raw configuration value: a nested key/value structure whose leaves
are strings or numbers (the slice of Python/JSON values the source-config
machinery inspects). -/
inductive Raw where
  | str (s : String)
  | num (q : ℚ)
  | obj (fields : List (String × Raw))

/-- Python `d.get(k)` / `k in d` lookup on an insertion-ordered mapping. -/
def lookupKey (m : List (String × Raw)) (k : String) : Option Raw :=
  match m with
  | [] => none
  | p :: rest => if p.1 = k then some p.2 else lookupKey rest k

/-- Python `k in d` on an insertion-ordered mapping. -/
def hasKey (m : List (String × Raw)) (k : String) : Bool :=
  (lookupKey m k).isSome

/-- Python `d.update(\x7bk: v\x7d)`: overwrite the value at `k` keeping its
position if the key exists, otherwise append the new binding at the end. -/
def dictUpdate (m : List (String × Raw)) (k : String) (v : Raw) : List (String × Raw) :=
  if hasKey m k then m.map (fun p => if p.1 = k then (k, v) else p)
  else m ++ [(k, v)]

/-- The fields of an object value (`[]` on a non-object). -/
def getObj : Raw → List (String × Raw)
  | .obj fields => fields
  | _ => []

/-- `get_impurity_heat_sink_discriminator_value` from
`torax/sources/pydantic_model.py`: `model.get('model_func',
'impurity_radiation_mavrin_fit')` — the `model_func` value verbatim if
present, else the mavrin-fit default tag. -/
def get_impurity_heat_sink_discriminator_value (model : List (String × Raw)) : Raw :=
  (lookupKey model "model_func").getD (.str "impurity_radiation_mavrin_fit")

/-- A time-varying scalar as a sequence of (time, value) samples; a plain
number is the degenerate single-sample series. -/
def TimeVaryingScalar : Type := List (ℚ × ℚ)

/-- The config class `ImpurityRadiationHeatSinkConstantFractionConfig`
(lines 99–117 of the source): two `Literal`-typed identifying fields, a
time-varying `fraction_of_total_power_density` and a `mode`. -/
structure ImpurityRadiationHeatSinkConstantFractionConfig where
  source_name : String
  model_func : String
  fraction_of_total_power_density : List (ℚ × ℚ)
  mode : Mode
deriving DecidableEq

/-- Validation of the `source_name` field: a `Literal` pydantic field with
a default — absent means the default, present must equal the literal. -/
def checkSourceNameCF (raw : List (String × Raw)) : Except String String :=
  match lookupKey raw "source_name" with
  | none => Except.ok "impurity_radiation_heat_sink"
  | some (.str s) =>
      if s = "impurity_radiation_heat_sink" then Except.ok s
      else Except.error "source_name must be impurity_radiation_heat_sink"
  | some _ => Except.error "source_name must be impurity_radiation_heat_sink"

/-- Validation of the `model_func` field of the constant-fraction config:
a `Literal` pydantic field with a default. -/
def checkModelFuncCF (raw : List (String × Raw)) : Except String String :=
  match lookupKey raw "model_func" with
  | none => Except.ok "radially_constant_fraction_of_Pin"
  | some (.str s) =>
      if s = "radially_constant_fraction_of_Pin" then Except.ok s
      else Except.error "model_func must be radially_constant_fraction_of_Pin"
  | some _ => Except.error "model_func must be radially_constant_fraction_of_Pin"

/-- Validation of `fraction_of_total_power_density`: a
`TimeVaryingScalar` with `ValidatedDefault(0.1)` — absent means the
constant series 0.1, a number means that constant series. -/
def checkFractionCF (raw : List (String × Raw)) : Except String (List (ℚ × ℚ)) :=
  match lookupKey raw "fraction_of_total_power_density" with
  | none => Except.ok [((0 : ℚ), (1 : ℚ) / 10)]
  | some (.num q) => Except.ok [((0 : ℚ), q)]
  | some _ => Except.error "invalid fraction_of_total_power_density"

/-- Validation of `mode`: an enum field defaulting to `MODEL_BASED`. -/
def checkModeCF (raw : List (String × Raw)) : Except String Mode :=
  match lookupKey raw "mode" with
  | none => Except.ok Mode.MODEL_BASED
  | some (.str "zero") => Except.ok Mode.ZERO
  | some (.str "model_based") => Except.ok Mode.MODEL_BASED
  | some (.str "prescribed") => Except.ok Mode.PRESCRIBED
  | some _ => Except.error "invalid mode"

/-- Pydantic validation of a raw mapping against
`ImpurityRadiationHeatSinkConstantFractionConfig`: every field validates
(absent fields take their declared defaults) or the first failure is
reported. -/
def validateConstantFractionConfig (raw : List (String × Raw)) :
    Except String ImpurityRadiationHeatSinkConstantFractionConfig :=
  match checkSourceNameCF raw, checkModelFuncCF raw, checkFractionCF raw, checkModeCF raw with
  | Except.ok sn, Except.ok mf, Except.ok fr, Except.ok md => Except.ok ⟨sn, mf, fr, md⟩
  | Except.error e, _, _, _ => Except.error e
  | _, Except.error e, _, _ => Except.error e
  | _, _, Except.error e, _ => Except.error e
  | _, _, _, Except.error e => Except.error e

/-- Modelled from the spec: the mavrin-fit variant's config class lives in
`impurity_radiation_mavrin_fit.py`, which is not under src/; only its two
identifying fields are needed here. -/
structure ImpurityRadiationHeatSinkMavrinFitConfig where
  source_name : String
  model_func : String
deriving DecidableEq

/-- Modelled from the spec: validation of the mavrin-fit variant's
identifying `Literal` fields (its class is not under src/). -/
def validateMavrinFitConfig (raw : List (String × Raw)) :
    Except String ImpurityRadiationHeatSinkMavrinFitConfig :=
  match checkSourceNameCF raw with
  | Except.error e => Except.error e
  | Except.ok sn =>
      match lookupKey raw "model_func" with
      | none => Except.ok ⟨sn, "impurity_radiation_mavrin_fit"⟩
      | some (.str s) =>
          if s = "impurity_radiation_mavrin_fit" then Except.ok ⟨sn, s⟩
          else Except.error "model_func must be impurity_radiation_mavrin_fit"
      | some _ => Except.error "model_func must be impurity_radiation_mavrin_fit"

/-- The discriminated union `ImpurityRadiationHeatSinkConfig`: one of the
two impurity-radiation variants, tagged `impurity_radiation_mavrin_fit` /
`radially_constant_fraction_of_Pin`. -/
inductive ImpurityRadiationHeatSinkConfig where
  | mavrin_fit (cfg : ImpurityRadiationHeatSinkMavrinFitConfig)
  | constant_fraction (cfg : ImpurityRadiationHeatSinkConstantFractionConfig)
deriving DecidableEq

/-- Discriminated-union validation of an impurity-radiation sink spec:
first the discriminator tag is computed from the raw mapping by
`get_impurity_heat_sink_discriminator_value`, then only the variant
selected by that tag is validated; an unregistered tag is a
configuration error. -/
def validateImpurityRadiationHeatSink (raw : List (String × Raw)) :
    Except String ImpurityRadiationHeatSinkConfig :=
  match get_impurity_heat_sink_discriminator_value raw with
  | .str tag =>
      if tag = "impurity_radiation_mavrin_fit" then
        (validateMavrinFitConfig raw).map ImpurityRadiationHeatSinkConfig.mavrin_fit
      else if tag = "radially_constant_fraction_of_Pin" then
        (validateConstantFractionConfig raw).map
          ImpurityRadiationHeatSinkConfig.constant_fraction
      else Except.error "unknown model_func tag for impurity_radiation_heat_sink"
  | _ => Except.error "unknown model_func tag for impurity_radiation_heat_sink"

/-- `Sources._conform_data` (lines 93–105 of
`torax/sources/pydantic_model.py`): when `source_model_config` is already
a key of the input, the data passes through unchanged; otherwise each
top-level entry's key is injected as its `source_name` field (on a deep
copy) and the result is wrapped under `source_model_config`.  A non-dict
entry value makes the Python `.update` call fail, embedded as an error. -/
def conformEntries : List (String × Raw) → Except String (List (String × Raw))
  | [] => Except.ok []
  | p :: rest =>
      match p.2 with
      | .obj fields =>
          (conformEntries rest).map
            (fun es => (p.1, Raw.obj (dictUpdate fields "source_name" (.str p.1))) :: es)
      | _ => Except.error "source config entry is not a mapping"

/-- `Sources._conform_data`, the top-level branch: pass through when
`source_model_config` is already a key, else wrap the injected entries. -/
def conform_data (data : List (String × Raw)) : Except String (List (String × Raw)) :=
  if hasKey data "source_model_config" then Except.ok data
  else
    (conformEntries data).map
      (fun entries => [("source_model_config", Raw.obj entries)])

/-- Modelled from the spec: `interpolated_param.InterpolatedVarSingleAxis`
is not under src/; per the spec it binds an ordered (time, value) sample
sequence for evaluation at arbitrary times. -/
structure InterpolatedVarSingleAxis where
  samples : List (ℚ × ℚ)
deriving DecidableEq

/-- Modelled from the spec: piecewise-linear interpolation between the
previous sample `(t0, v0)` and the remaining samples, clamping to the
last sample beyond the sampled range. -/
def interpolateFrom (t0 v0 : ℚ) : List (ℚ × ℚ) → ℚ → ℚ
  | [], _ => v0
  | (t1, v1) :: rest, t =>
      if t ≤ t1 then v0 + (v1 - v0) * (t - t0) / (t1 - t0)
      else interpolateFrom t1 v1 rest t

/-- Modelled from the spec: evaluate a sampled time series at time `t`,
clamping to the boundary samples outside the sampled range. -/
def interpolate (samples : List (ℚ × ℚ)) (t : ℚ) : ℚ :=
  match samples with
  | [] => 0
  | (t0, v0) :: rest => if t ≤ t0 then v0 else interpolateFrom t0 v0 rest t

/-- The `RuntimeParamsProvider` of the constant-fraction sink: the bound
interpolator for `fraction_of_total_power_density` plus the base-class
`mode` (base fields modelled from the spec's data model). -/
structure RuntimeParamsProvider where
  fraction_of_total_power_density : InterpolatedVarSingleAxis
  mode : Mode
deriving DecidableEq

/-- Modelled from the spec:
`RuntimeParamsProvider.get_dynamic_params_kwargs` (in
`runtime_params_lib`, not under src/) interpolates every time-varying
field of the provider at `t` and passes `mode` through. -/
def get_dynamic_params_kwargs (p : RuntimeParamsProvider) (t : ℚ) : ℚ × Mode :=
  (interpolate p.fraction_of_total_power_density.samples t, p.mode)

/-- `RuntimeParamsProvider.build_dynamic_params` (lines 140–144 of the
source): construct the `DynamicRuntimeParams` from
`get_dynamic_params_kwargs(t)`.  The provider state threads through
explicitly so that freedom from side effects is a provable statement:
the returned provider is the one evaluation continues with. -/
def build_dynamic_params (p : RuntimeParamsProvider) (t : ℚ) :
    DynamicRuntimeParams × RuntimeParamsProvider :=
  (⟨(get_dynamic_params_kwargs p t).1, (get_dynamic_params_kwargs p t).2⟩, p)

theorem getLastD_zero_of_ne_nil (l : List ℚ) (h : l ≠ []) : l.getLastD 0 = l.getLast h := by
  rw [List.getLastD_eq_getLast?, List.getLast?_eq_getLast l h, Option.getD_some]

/-- C1: with a present `calculated_source_profiles` container the model
returns one per-cell profile that is spatially uniform — every cell holds
`-fraction * P_in / V_tot`, where `P_in` is the cell integration of
`Q_in * geo.vpr` and `V_tot` is the last face value of `geo.volume_face`. -/
theorem sink_profile_is_uniform_fraction_of_Pin
    (params : DynamicRuntimeParams) (geo : Geometry) (profiles : SourceProfiles)
    (hne : geo.volume_face ≠ []) :
    radially_constant_fraction_of_Pin params geo (some profiles) =
      Except.ok [List.replicate geo.rho.length
        (-params.fraction_of_total_power_density
          * cell_integration (mulArr (QtotIn profiles geo) geo.vpr) geo
          / geo.volume_face.getLast hne)] := by
  unfold radially_constant_fraction_of_Pin
  rw [getLastD_zero_of_ne_nil geo.volume_face hne]

/-- C1 witness: one cell with `Q_in = 3`, `vpr = 1`, `drho_norm = 1`,
`V_tot = 2`, `fraction = 1/2` gives the uniform profile `[-3/4]`. -/
theorem sink_profile_is_uniform_fraction_of_Pin_witness :
    ((⟨[0], [1], 1, [2]⟩ : Geometry).volume_face ≠ []) ∧
    radially_constant_fraction_of_Pin ⟨1/2, Mode.MODEL_BASED⟩ ⟨[0], [1], 1, [2]⟩
      (some ⟨[("A", [3])], []⟩) = Except.ok [[(-3/4 : ℚ)]] := by
  have h1 : containsSubstring "sink" "A" = false := by decide
  refine ⟨by simp, ?_⟩
  have h := sink_profile_is_uniform_fraction_of_Pin ⟨1/2, Mode.MODEL_BASED⟩
    ⟨[0], [1], 1, [2]⟩ ⟨[("A", [3])], []⟩ (by simp)
  rw [h]
  simp [cell_integration, mulArr, QtotIn, sumNonSink, addArr, h1, List.getLast]
  norm_num

/-- C3: with an absent (`None`) container the model raises immediately:
the result is an error whose message names
`radially_constant_fraction_of_Pin`, and no successful (silent zero)
result is ever produced. -/
theorem missing_container_raises_named_error
    (params : DynamicRuntimeParams) (geo : Geometry) :
    (∃ msg, radially_constant_fraction_of_Pin params geo none = Except.error msg ∧
      containsSubstring "radially_constant_fraction_of_Pin" msg = true) ∧
    ∀ out, radially_constant_fraction_of_Pin params geo none ≠ Except.ok out := by
  refine ⟨⟨_, rfl, by decide⟩, fun out h => ?_⟩
  simp [radially_constant_fraction_of_Pin] at h

/-- C6: the fraction is applied multiplicatively with no clamping or
range check: for every rational `fraction` (negative and `≥ 1` values
included) the call succeeds with the exact uniform value
`-fraction * P_in / V_tot`, and that value scales linearly in the
fraction. -/
theorem fraction_applied_unclamped (m : Mode) (geo : Geometry)
    (profiles : SourceProfiles) (f : ℚ) :
    radially_constant_fraction_of_Pin ⟨f, m⟩ geo (some profiles) =
      Except.ok [List.replicate geo.rho.length
        (-f * cell_integration (mulArr (QtotIn profiles geo) geo.vpr) geo
          / geo.volume_face.getLastD 0)] ∧
    -f * cell_integration (mulArr (QtotIn profiles geo) geo.vpr) geo
        / geo.volume_face.getLastD 0
      = f * (-1 * cell_integration (mulArr (QtotIn profiles geo) geo.vpr) geo
          / geo.volume_face.getLastD 0) :=
  ⟨rfl, by ring⟩

/-- C7: `build_dynamic_params` is deterministic and side-effect-free:
the provider comes back unchanged, and re-evaluating on the returned
provider at the same `t` yields an identical `DynamicRuntimeParams`. -/
theorem build_dynamic_params_pure (p : RuntimeParamsProvider) (t : ℚ) :
    (build_dynamic_params p t).2 = p ∧
    (build_dynamic_params ((build_dynamic_params p t).2) t).1
      = (build_dynamic_params p t).1 :=
  ⟨rfl, rfl⟩

theorem zipWith_add_replicate_zero (a : List ℚ) : ∀ n, a.length = n →
    List.zipWith (· + ·) (List.replicate n (0 : ℚ)) a = a := by
  induction a with
  | nil => intro n _; simp
  | cons x xs ih =>
    intro n h
    cases n with
    | zero => simp at h
    | succ m =>
      simp only [List.replicate_succ, List.zipWith_cons_cons, zero_add]
      rw [ih m (by simpa using h)]

/-- C2: the aggregate `Q_in` sums, over both heat mappings, exactly the
entries whose name does not contain `sink`: a container with entries
`A ↦ a, B ↦ b, sinkX ↦ s` in either the electron-heat or the ion-heat
mapping aggregates to the elementwise `a + b`, for every `s`. -/
theorem aggregation_excludes_sink_entries (geo : Geometry) (a b s : List ℚ)
    (ha : a.length = geo.rho.length) :
    QtotIn ⟨[("A", a), ("B", b), ("sinkX", s)], []⟩ geo = List.zipWith (· + ·) a b ∧
    QtotIn ⟨[], [("A", a), ("B", b), ("sinkX", s)]⟩ geo = List.zipWith (· + ·) a b := by
  have hA : containsSubstring "sink" "A" = false := by decide
  have hB : containsSubstring "sink" "B" = false := by decide
  have hS : containsSubstring "sink" "sinkX" = true := by decide
  constructor <;>
    simp [QtotIn, sumNonSink, hA, hB, hS, addArr,
      zipWith_add_replicate_zero a geo.rho.length ha]

/-- C2 witness: two cells, `a = [1,2]`, `b = [10,20]`, a sink entry
`[100,200]` of either sign is ignored: the aggregate is `[11,22]`. -/
theorem aggregation_excludes_sink_entries_witness :
    ([(1 : ℚ), 2].length = (⟨[0, 0], [1, 1], 1, [1]⟩ : Geometry).rho.length) ∧
    QtotIn ⟨[("A", [1, 2]), ("B", [10, 20]), ("sinkX", [100, 200])], []⟩
        ⟨[0, 0], [1, 1], 1, [1]⟩
      = List.zipWith (· + ·) [(1 : ℚ), 2] [10, 20] :=
  ⟨rfl, (aggregation_excludes_sink_entries ⟨[0, 0], [1, 1], 1, [1]⟩
    [1, 2] [10, 20] [100, 200] rfl).1⟩

/-- Modelled from the spec: the registration of the constant-fraction
sink declares it a contributor to the electron-heat equation only (the
`ImpurityRadiationHeatSink` source class with its affected-equations
declaration is not under src/). -/
def impurityRadiationAffectedEquations : List String := ["temp_el"]

/-- C5: every successful call returns a tuple of exactly one per-cell
array, aligned with the model's declared equation list, which is the
electron-heat equation alone. -/
theorem sink_returns_single_temp_el_contribution
    (params : DynamicRuntimeParams) (geo : Geometry) (profiles : SourceProfiles)
    (out : List (List ℚ))
    (h : radially_constant_fraction_of_Pin params geo (some profiles) = Except.ok out) :
    out.length = impurityRadiationAffectedEquations.length ∧
    impurityRadiationAffectedEquations = ["temp_el"] := by
  unfold radially_constant_fraction_of_Pin at h
  have h2 := Except.ok.inj h
  exact ⟨by rw [← h2]; rfl, rfl⟩

/-- C5 witness: a successful call on an empty grid returns a one-element
tuple matching the declared single affected equation. -/
theorem sink_returns_single_temp_el_contribution_witness :
    ([[]] : List (List ℚ)).length = impurityRadiationAffectedEquations.length ∧
    impurityRadiationAffectedEquations = ["temp_el"] :=
  sink_returns_single_temp_el_contribution ⟨0, Mode.MODEL_BASED⟩ ⟨[], [], 1, []⟩
    ⟨[], []⟩ [[]] rfl

theorem cell_integration_zero_profile (geo : Geometry) (l : List ℚ) :
    ∀ n, cell_integration (mulArr (List.replicate n 0) l) geo = 0 := by
  induction l with
  | nil => intro n; cases n <;> simp [mulArr, cell_integration]
  | cons x xs ih =>
    intro n
    cases n with
    | zero => simp [mulArr, cell_integration]
    | succ m =>
      simp only [List.replicate_succ, mulArr, List.zipWith_cons_cons,
        cell_integration, List.map_cons, List.sum_cons, zero_mul, zero_add]
      simpa [mulArr, cell_integration] using ih m

/-- C9: a present container whose `temp_el` and `temp_ion` mappings are
both empty raises no error: with a nonzero total volume the result is the
uniformly zero per-cell profile. -/
theorem empty_mappings_give_zero_sink (params : DynamicRuntimeParams)
    (geo : Geometry) (hV : geo.volume_face.getLastD 0 ≠ 0) :
    radially_constant_fraction_of_Pin params geo (some ⟨[], []⟩) =
      Except.ok [List.replicate geo.rho.length 0] := by
  have hq : QtotIn ⟨[], []⟩ geo = List.replicate geo.rho.length 0 := rfl
  simp only [radially_constant_fraction_of_Pin]
  rw [hq, cell_integration_zero_profile geo geo.vpr geo.rho.length]
  simp

/-- C9 witness: one cell, `V_tot = 2 ≠ 0`, empty heat mappings: the call
succeeds with the zero profile `[0]`. -/
theorem empty_mappings_give_zero_sink_witness :
    ((⟨[0], [1], 1, [2]⟩ : Geometry).volume_face.getLastD 0 ≠ 0) ∧
    radially_constant_fraction_of_Pin ⟨1/2, Mode.MODEL_BASED⟩ ⟨[0], [1], 1, [2]⟩
      (some ⟨[], []⟩) = Except.ok [[(0 : ℚ)]] := by
  refine ⟨by norm_num, ?_⟩
  have h := empty_mappings_give_zero_sink ⟨1/2, Mode.MODEL_BASED⟩
    ⟨[0], [1], 1, [2]⟩ (by norm_num)
  simpa using h

/-- C4: the discriminator used to resolve an impurity-radiation sink spec
is the `model_func` value verbatim when present, and the mavrin-fit
default tag when absent; the tag is computed from the raw mapping alone,
so the variant dispatched to when `model_func` is absent is the
mavrin-fit validator, not the constant-fraction one. -/
theorem discriminator_verbatim_or_mavrin_default (raw : List (String × Raw)) :
    (∀ v, lookupKey raw "model_func" = some v →
      get_impurity_heat_sink_discriminator_value raw = v) ∧
    (lookupKey raw "model_func" = none →
      get_impurity_heat_sink_discriminator_value raw
          = Raw.str "impurity_radiation_mavrin_fit" ∧
      validateImpurityRadiationHeatSink raw =
        (validateMavrinFitConfig raw).map ImpurityRadiationHeatSinkConfig.mavrin_fit) := by
  constructor
  · intro v hv
    simp [get_impurity_heat_sink_discriminator_value, hv]
  · intro hn
    have hd : get_impurity_heat_sink_discriminator_value raw
        = Raw.str "impurity_radiation_mavrin_fit" := by
      simp [get_impurity_heat_sink_discriminator_value, hn]
    refine ⟨hd, ?_⟩
    rw [validateImpurityRadiationHeatSink, hd]
    simp

/-- C4 witness: a present `model_func` is used verbatim; an absent one
resolves to the mavrin-fit default tag. -/
theorem discriminator_verbatim_or_mavrin_default_witness :
    get_impurity_heat_sink_discriminator_value
        [("model_func", Raw.str "radially_constant_fraction_of_Pin")]
      = Raw.str "radially_constant_fraction_of_Pin" ∧
    get_impurity_heat_sink_discriminator_value []
      = Raw.str "impurity_radiation_mavrin_fit" :=
  ⟨(discriminator_verbatim_or_mavrin_default
      [("model_func", Raw.str "radially_constant_fraction_of_Pin")]).1 _ (by rfl),
   ((discriminator_verbatim_or_mavrin_default []).2 (by rfl)).1⟩

theorem conformEntries_of_objs (data : List (String × Raw))
    (h : ∀ p ∈ data, ∃ fields, p.2 = Raw.obj fields) :
    conformEntries data = Except.ok (data.map (fun p =>
      (p.1, Raw.obj (dictUpdate (getObj p.2) "source_name" (Raw.str p.1))))) := by
  induction data with
  | nil => rfl
  | cons p rest ih =>
    obtain ⟨fields, hf⟩ := h p (List.mem_cons_self p rest)
    have hrest := ih (fun q hq => h q (List.mem_cons_of_mem p hq))
    simp [conformEntries, hf, hrest, Except.map, getObj]

/-- C8: `Sources._conform_data` passes the input through unchanged when
`source_model_config` is already a key; otherwise it injects each
top-level entry's key as that entry's `source_name` field and wraps the
result under `source_model_config`. -/
theorem conform_data_passthrough_or_inject (data : List (String × Raw)) :
    (hasKey data "source_model_config" = true → conform_data data = Except.ok data) ∧
    (hasKey data "source_model_config" = false →
      (∀ p ∈ data, ∃ fields, p.2 = Raw.obj fields) →
      conform_data data = Except.ok [("source_model_config",
        Raw.obj (data.map (fun p =>
          (p.1, Raw.obj (dictUpdate (getObj p.2) "source_name" (Raw.str p.1))))))]) := by
  constructor
  · intro h
    simp [conform_data, h]
  · intro h hobj
    simp [conform_data, h, conformEntries_of_objs data hobj, Except.map]

/-- C8 witness: data already carrying `source_model_config` passes
through unchanged; a one-entry mapping `foo ↦ \x7b\x7d` is wrapped with
`source_name = foo` injected. -/
theorem conform_data_passthrough_or_inject_witness :
    conform_data [("source_model_config", Raw.obj [])]
        = Except.ok [("source_model_config", Raw.obj [])] ∧
    conform_data [("foo", Raw.obj [])] = Except.ok [("source_model_config",
      Raw.obj ([("foo", Raw.obj [])].map (fun p =>
        (p.1, Raw.obj (dictUpdate (getObj p.2) "source_name" (Raw.str p.1))))))] := by
  constructor
  · exact (conform_data_passthrough_or_inject _).1 rfl
  · refine (conform_data_passthrough_or_inject _).2 rfl ?_
    intro p hp
    simp only [List.mem_singleton] at hp
    rw [hp]
    exact ⟨[], rfl⟩

theorem checkSourceNameCF_ok (raw : List (String × Raw)) (sn : String)
    (h : checkSourceNameCF raw = Except.ok sn) :
    sn = "impurity_radiation_heat_sink" := by
  unfold checkSourceNameCF at h
  split at h
  · exact (Except.ok.inj h).symm
  · split at h
    · next hcond => exact (Except.ok.inj h).symm.trans hcond
    · exact absurd h (by simp)
  · exact absurd h (by simp)

theorem checkModelFuncCF_ok (raw : List (String × Raw)) (mf : String)
    (h : checkModelFuncCF raw = Except.ok mf) :
    mf = "radially_constant_fraction_of_Pin" := by
  unfold checkModelFuncCF at h
  split at h
  · exact (Except.ok.inj h).symm
  · split at h
    · next hcond => exact (Except.ok.inj h).symm.trans hcond
    · exact absurd h (by simp)
  · exact absurd h (by simp)

theorem checkFractionCF_default (raw : List (String × Raw))
    (h : lookupKey raw "fraction_of_total_power_density" = none) :
    checkFractionCF raw = Except.ok [((0 : ℚ), 1 / 10)] := by
  unfold checkFractionCF
  rw [h]

theorem checkModeCF_default (raw : List (String × Raw))
    (h : lookupKey raw "mode" = none) :
    checkModeCF raw = Except.ok Mode.MODEL_BASED := by
  unfold checkModeCF
  rw [h]

/-- C10: every successfully validated constant-fraction config has the
fixed `source_name` and `model_func` literals, and when the raw spec
omits them, `fraction_of_total_power_density` defaults to the constant
0.1 and `mode` defaults to `MODEL_BASED`. -/
theorem constant_fraction_config_literals_and_defaults
    (raw : List (String × Raw)) (cfg : ImpurityRadiationHeatSinkConstantFractionConfig)
    (h : validateConstantFractionConfig raw = Except.ok cfg) :
    cfg.source_name = "impurity_radiation_heat_sink" ∧
    cfg.model_func = "radially_constant_fraction_of_Pin" ∧
    (lookupKey raw "fraction_of_total_power_density" = none →
      cfg.fraction_of_total_power_density = [((0 : ℚ), 1 / 10)]) ∧
    (lookupKey raw "mode" = none → cfg.mode = Mode.MODEL_BASED) := by
  unfold validateConstantFractionConfig at h
  split at h
  · next sn mf fr md hsn hmf hfr hmd =>
    obtain rfl := Except.ok.inj h
    refine ⟨checkSourceNameCF_ok raw sn hsn, checkModelFuncCF_ok raw mf hmf, ?_, ?_⟩
    · intro hn
      exact Except.ok.inj (hfr.symm.trans (checkFractionCF_default raw hn))
    · intro hn
      exact Except.ok.inj (hmd.symm.trans (checkModeCF_default raw hn))
  · exact absurd h (by simp)
  · exact absurd h (by simp)
  · exact absurd h (by simp)
  · exact absurd h (by simp)

/-- C10 witness: validating the empty raw spec succeeds with both
literals, the constant-0.1 fraction and `MODEL_BASED` mode. -/
theorem constant_fraction_config_literals_and_defaults_witness :
    (ImpurityRadiationHeatSinkConstantFractionConfig.mk
        "impurity_radiation_heat_sink" "radially_constant_fraction_of_Pin"
        [((0 : ℚ), 1 / 10)] Mode.MODEL_BASED).source_name
      = "impurity_radiation_heat_sink" ∧
    (ImpurityRadiationHeatSinkConstantFractionConfig.mk
        "impurity_radiation_heat_sink" "radially_constant_fraction_of_Pin"
        [((0 : ℚ), 1 / 10)] Mode.MODEL_BASED).model_func
      = "radially_constant_fraction_of_Pin" ∧
    (ImpurityRadiationHeatSinkConstantFractionConfig.mk
        "impurity_radiation_heat_sink" "radially_constant_fraction_of_Pin"
        [((0 : ℚ), 1 / 10)] Mode.MODEL_BASED).fraction_of_total_power_density
      = [((0 : ℚ), 1 / 10)] ∧
    (ImpurityRadiationHeatSinkConstantFractionConfig.mk
        "impurity_radiation_heat_sink" "radially_constant_fraction_of_Pin"
        [((0 : ℚ), 1 / 10)] Mode.MODEL_BASED).mode = Mode.MODEL_BASED := by
  have h := constant_fraction_config_literals_and_defaults []
    (ImpurityRadiationHeatSinkConstantFractionConfig.mk
      "impurity_radiation_heat_sink" "radially_constant_fraction_of_Pin"
      [((0 : ℚ), 1 / 10)] Mode.MODEL_BASED) rfl
  exact ⟨h.1, h.2.1, h.2.2.1 rfl, h.2.2.2 rfl⟩

end Torax
